import Mathlib

/-!
Shallow embedding of the OmniRoboGym core (joint impedance controller,
first-order reference filter, homing resolver, robot state synchronizer)
from:
  omni_robo_gym/utils/jnt_imp_cntrl.py
  omni_robo_gym/utils/homing.py
  omni_robo_gym/tasks/custom_task.py
Scalars are modelled as exact numbers (ℚ for executable developments, ℝ
where the spec's 2·π·bandwidth constant is involved); 2-D torch buffers of
shape [num_robots, n_dofs] become functions `Fin R → Fin C → α`.
-/

/-- Torch dtype tags, as far as the controller inspects them. -/
inductive TDtype where
  | int64
  | int32
  | float32
  | float64
  deriving DecidableEq, Repr

/-- Torch device *type* (the source only ever compares `device.type`). -/
inductive TDevice where
  | cpu
  | cuda
  deriving DecidableEq, Repr

/-- Python exceptions that the embedded code can raise. -/
inductive PyErr where
  | attributeError
  deriving DecidableEq, Repr

/-- A 1-D torch integer tensor used as a robot/joint index selector:
the source inspects its shape, values, dtype and device. -/
structure IdxTensor where
  shape : List Nat
  vals : List Int
  dtype : TDtype
  device : TDevice
  deriving DecidableEq, Repr

/-- `torch.min` over the flattened values (the source only calls it after
the shape check passed; an empty tensor would raise in torch, a case no
theorem below relies on). -/
def tmin (l : List Int) : Int := l.foldl min (l.headD 0)

/-- `torch.max` over the flattened values. -/
def tmax (l : List Int) : Int := l.foldl max (l.headD 0)

/-- A dense 2-D buffer of shape [R, C]. -/
abbrev Buf (R C : Nat) (α : Type) := Fin R → Fin C → α

/-- A torch tensor handed to a setter: its shape, payload and device.
The payload is total over ℕ×ℕ; only the first `rows × cols` cells are
meaningful. -/
structure Signal where
  rows : Nat
  cols : Nat
  data : Nat → Nat → ℚ
  device : TDevice

/-- Position of the *last* occurrence of `x` in `l` (torch advanced
indexing writes index lists in order, so on duplicates the last write
wins). -/
def lastIdxOf {α : Type} [DecidableEq α] : List α → α → Option Nat
  | [], _ => none
  | a :: rest, x =>
    match lastIdxOf rest x with
    | some i => some (i + 1)
    | none => if a = x then some 0 else none

/-- `FirstOrderFilter` (jnt_imp_cntrl.py, lines 27-103): a bank of
first-order low-pass filters discretized by the bilinear transform.
`piVal` stands for the float constant `math.pi` read in `__init__`;
theorems instantiate it with `Real.pi`. -/
structure FirstOrderFilter (R C : Nat) (α : Type) where
  dt : α
  filterBW : α
  gain : α
  kh2 : α
  coeffRef : α
  coeffKm1 : α
  yk : Buf R C α
  ykm1 : Buf R C α
  refk : Buf R C α
  refkm1 : Buf R C α
  deriving DecidableEq

/-- `FirstOrderFilter.__init__`: `gain = 2*pi*BW`, `kh2 = gain*dt/2`,
`coeff_ref = kh2 * 1 / (1 + kh2)`, `coeff_km1 = (1 - kh2)/(1 + kh2)`,
all four state buffers zeroed. -/
def FirstOrderFilter.init (R C : Nat) {α : Type} [Field α]
    (piVal dt filterBW : α) : FirstOrderFilter R C α :=
  let gain := 2 * piVal * filterBW
  let kh2 := gain * dt / 2
  { dt := dt
    filterBW := filterBW
    gain := gain
    kh2 := kh2
    coeffRef := kh2 * 1 / (1 + kh2)
    coeffKm1 := (1 - kh2) / (1 + kh2)
    yk := fun _ _ => 0
    ykm1 := fun _ _ => 0
    refk := fun _ _ => 0
    refkm1 := fun _ _ => 0 }

/-- `FirstOrderFilter.update`: optionally latch a new reference, then
`yk = ykm1 * coeff_km1 + (refk + refkm1) * coeff_ref`, then shift the
current reference and output into the `km1` buffers. -/
def FirstOrderFilter.update {R C : Nat} {α : Type} [Field α]
    (f : FirstOrderFilter R C α) (refIn : Option (Buf R C α)) :
    FirstOrderFilter R C α :=
  let refk := match refIn with
    | some r => r
    | none => f.refk
  let yk := fun r c => f.ykm1 r c * f.coeffKm1 + (refk r c + f.refkm1 r c) * f.coeffRef
  { f with refk := refk, yk := yk, refkm1 := refk, ykm1 := yk }

/-- Iterated `update`, one call per reference in the list. -/
def runFilter {R C : Nat} {α : Type} [Field α]
    (f0 : FirstOrderFilter R C α) (refs : List (Buf R C α)) :
    FirstOrderFilter R C α :=
  refs.foldl (fun f r => f.update (some r)) f0

/-- `OmniJntImpCntrl.IndxState` (jnt_imp_cntrl.py, lines 109-113). -/
inductive IndxState where
  | NONE
  | VALID
  | INVALID
  deriving DecidableEq, Repr

/-- One side of `_validate_selectors` (lines 264-330): VALID iff the
tensor is one-dimensional, of dtype int64, on the controller's device
type, with minimum ≥ 0 and maximum < the bound.  No uniqueness check is
performed by the source. -/
def checkIdxTensor (dev : TDevice) (bound : Nat) (t : IdxTensor) : IndxState :=
  if t.shape.length = 1 ∧ t.dtype = TDtype.int64 ∧ t.device = dev ∧
      0 ≤ tmin t.vals ∧ tmax t.vals < (bound : Int)
  then IndxState.VALID else IndxState.INVALID

/-- `range(0, n)` as int64 index values. -/
def rangeIdx (n : Nat) : List Int := (List.range n).map Int.ofNat

/-- `_gen_selector` (lines 338-371): returns the meshgrid selector, here
represented by its two index lists; `none` both when both subsets are
absent and when any provided subset is INVALID. -/
def genSelector (dev : TDevice) (numRobots nDofs : Nat)
    (robot? jnt? : Option IdxTensor) : Option (List Int × List Int) :=
  match robot?, jnt? with
  | some rt, some jt =>
    if checkIdxTensor dev numRobots rt = IndxState.VALID ∧
        checkIdxTensor dev nDofs jt = IndxState.VALID
    then some (rt.vals, jt.vals) else none
  | some rt, none =>
    if checkIdxTensor dev numRobots rt = IndxState.VALID
    then some (rt.vals, rangeIdx nDofs) else none
  | none, some jt =>
    if checkIdxTensor dev nDofs jt = IndxState.VALID
    then some (rangeIdx numRobots, jt.vals) else none
  | none, none => none

/-- `_validate_signal` (lines 373-434): with no selector the signal must
match the full buffer shape and the controller's device type; with a
selector it must match the selector's meshgrid shape. -/
def validateSignal (dev : TDevice) (numRobots nDofs : Nat) (sig : Signal)
    (sel : Option (List Int × List Int)) : Bool :=
  match sel with
  | none =>
    sig.rows == numRobots && sig.cols == nDofs && sig.device == dev
  | some (rl, jl) =>
    sig.rows == rl.length && sig.cols == jl.length && sig.device == dev

/-- `buf[meshgrid(rl, jl)] = signal`: cell `(rl[i], jl[j])` receives
`signal[i, j]`; on duplicate indices the last write wins. -/
def assignSel {R C : Nat} (buf : Buf R C ℚ) (rl jl : List Int) (sig : Signal) :
    Buf R C ℚ :=
  fun r c =>
    match lastIdxOf rl (Int.ofNat r.val), lastIdxOf jl (Int.ofNat c.val) with
    | some i, some j => sig.data i j
    | some _, none => buf r c
    | none, some _ => buf r c
    | none, none => buf r c

/-- Commands issued to the external `ArticulationView`. -/
inductive ArtCmd (R C : Nat) where
  | setGainsCmd (kps kds : Option (Buf R C ℚ))
  | setJointEfforts (v : Buf R C ℚ)
  | setJointPosTargets (v : Buf R C ℚ)
  | setJointVelTargets (v : Buf R C ℚ)
  deriving DecidableEq

/-- `OmniJntImpCntrl` state: the per-(robot, joint) gain, reference and
measurement buffers plus the flags and the reference filter bank.  When
the controller is built without `filter_dt`, `filterAvailable` is false
and the three filter fields stand in for the absent attributes. -/
structure OmniJntImpCntrl (R C : Nat) where
  device : TDevice
  overrideArt : Bool
  gainsInited : Bool
  refsInited : Bool
  filterAvailable : Bool
  posGains : Buf R C ℚ
  velGains : Buf R C ℚ
  effRef : Buf R C ℚ
  posRef : Buf R C ℚ
  velRef : Buf R C ℚ
  pos : Buf R C ℚ
  vel : Buf R C ℚ
  eff : Buf R C ℚ
  posErr : Buf R C ℚ
  velErr : Buf R C ℚ
  impEffBuf : Buf R C ℚ
  posRefFilter : FirstOrderFilter R C ℚ
  velRefFilter : FirstOrderFilter R C ℚ
  effRefFilter : FirstOrderFilter R C ℚ
  deriving DecidableEq

/-- `_assign_signal` (lines 436-541): dispatch on the string tag (all
eight members of `_valid_signal_types`, in source order); an unknown tag
returns `none` (the source returns `False` without assigning).  With a
selector the write goes through the meshgrid; without one the whole
buffer is overwritten. -/
def assignSignal {R C : Nat} (ctrl : OmniJntImpCntrl R C) (signalType : String)
    (sig : Signal) (sel : Option (List Int × List Int)) :
    Option (OmniJntImpCntrl R C) :=
  let put : Buf R C ℚ → Buf R C ℚ := fun buf =>
    match sel with
    | some (rl, jl) => assignSel buf rl jl sig
    | none => fun r c => sig.data r.val c.val
  if signalType = "pos_ref" then some { ctrl with posRef := put ctrl.posRef }
  else if signalType = "vel_ref" then some { ctrl with velRef := put ctrl.velRef }
  else if signalType = "eff_ref" then some { ctrl with effRef := put ctrl.effRef }
  else if signalType = "pos" then some { ctrl with pos := put ctrl.pos }
  else if signalType = "vel" then some { ctrl with vel := put ctrl.vel }
  else if signalType = "eff" then some { ctrl with eff := put ctrl.eff }
  else if signalType = "pgain" then some { ctrl with posGains := put ctrl.posGains }
  else if signalType = "vgain" then some { ctrl with velGains := put ctrl.velGains }
  else none

/-- `update_state` (lines 616-685): success flags `[pos ok, vel ok,
eff ok, assign ok]`; each provided measurement is validated against the
resolved selector, then assigned. -/
def updateState {R C : Nat} (ctrl : OmniJntImpCntrl R C)
    (pos? vel? eff? : Option Signal) (robot? jnt? : Option IdxTensor) :
    OmniJntImpCntrl R C × List Bool :=
  let sel := genSelector ctrl.device R C robot? jnt?
  let s0 := [true, true, true, true]
  let st1 := match pos? with
    | none => (ctrl, s0)
    | some sig =>
      if validateSignal ctrl.device R C sig sel then
        match assignSignal ctrl "pos" sig sel with
        | some c => (c, s0)
        | none => (ctrl, s0.set 3 false)
      else (ctrl, s0.set 0 false)
  let st2 := match vel? with
    | none => st1
    | some sig =>
      if validateSignal st1.1.device R C sig sel then
        match assignSignal st1.1 "vel" sig sel with
        | some c => (c, st1.2)
        | none => (st1.1, st1.2.set 3 false)
      else (st1.1, st1.2.set 1 false)
  match eff? with
  | none => st2
  | some sig =>
    if validateSignal st2.1.device R C sig sel then
      match assignSignal st2.1 "eff" sig sel with
      | some c => (c, st2.2)
      | none => (st2.1, st2.2.set 3 false)
    else (st2.1, st2.2.set 2 false)

/-- `set_gains` (lines 687-746): success flags `[pos_gains ok,
vel_gains ok, assign ok]`.  On a successful assignment outside override
mode the updated gain buffer is pushed to the articulation.  The source's
vel_gains branch validates `pos_gains` instead of `vel_gains` (line 725);
when `pos_gains` is absent that dereferences `None.shape`, raising
`AttributeError`. -/
def setGains {R C : Nat} (ctrl : OmniJntImpCntrl R C)
    (posGains? velGains? : Option Signal) (robot? jnt? : Option IdxTensor) :
    Except PyErr (OmniJntImpCntrl R C × List Bool × List (ArtCmd R C)) :=
  let sel := genSelector ctrl.device R C robot? jnt?
  let s0 := [true, true, true]
  let afterPos : OmniJntImpCntrl R C × List Bool × List (ArtCmd R C) :=
    match posGains? with
    | none => (ctrl, s0, [])
    | some pg =>
      if validateSignal ctrl.device R C pg sel then
        match assignSignal ctrl "pgain" pg sel with
        | some c =>
          if !c.overrideArt then
            (c, s0, [ArtCmd.setGainsCmd (some c.posGains) none])
          else (c, s0, [])
        | none => (ctrl, s0.set 2 false, [])
      else (ctrl, s0.set 0 false, [])
  match velGains? with
  | none => Except.ok afterPos
  | some vg =>
    match posGains? with
    | none => Except.error PyErr.attributeError
    | some pg =>
      if validateSignal afterPos.1.device R C pg sel then
        match assignSignal afterPos.1 "vgain" vg sel with
        | some c =>
          if !c.overrideArt then
            Except.ok (c, afterPos.2.1,
              afterPos.2.2 ++ [ArtCmd.setGainsCmd none (some c.velGains)])
          else Except.ok (c, afterPos.2.1, afterPos.2.2)
        | none => Except.ok (afterPos.1, afterPos.2.1.set 2 false, afterPos.2.2)
      else Except.ok (afterPos.1, afterPos.2.1.set 1 false, afterPos.2.2)

/-- `set_refs` (lines 748-815): success flags `[eff_ref ok, pos_ref ok,
vel_ref ok, assign ok]`; writes into the reference buffers only. -/
def setRefs {R C : Nat} (ctrl : OmniJntImpCntrl R C)
    (effRef? posRef? velRef? : Option Signal) (robot? jnt? : Option IdxTensor) :
    OmniJntImpCntrl R C × List Bool :=
  let sel := genSelector ctrl.device R C robot? jnt?
  let s0 := [true, true, true, true]
  let st1 := match effRef? with
    | none => (ctrl, s0)
    | some sig =>
      if validateSignal ctrl.device R C sig sel then
        match assignSignal ctrl "eff_ref" sig sel with
        | some c => (c, s0)
        | none => (ctrl, s0.set 3 false)
      else (ctrl, s0.set 0 false)
  let st2 := match posRef? with
    | none => st1
    | some sig =>
      if validateSignal st1.1.device R C sig sel then
        match assignSignal st1.1 "pos_ref" sig sel with
        | some c => (c, st1.2)
        | none => (st1.1, st1.2.set 3 false)
      else (st1.1, st1.2.set 1 false)
  match velRef? with
  | none => st2
  | some sig =>
    if validateSignal st2.1.device R C sig sel then
      match assignSignal st2.1 "vel_ref" sig sel with
      | some c => (c, st2.2)
      | none => (st2.1, st2.2.set 3 false)
    else (st2.1, st2.2.set 2 false)

/-- `_initialize_gains` (lines 219-238): first call pushes either the
stored gains (native mode) or zero gains (override mode) to the
articulation and latches the flag. -/
def initGains {R C : Nat} (ctrl : OmniJntImpCntrl R C) :
    OmniJntImpCntrl R C × List (ArtCmd R C) :=
  if ctrl.gainsInited then (ctrl, [])
  else if !ctrl.overrideArt then
    ({ ctrl with gainsInited := true },
      [ArtCmd.setGainsCmd (some ctrl.posGains) (some ctrl.velGains)])
  else
    ({ ctrl with gainsInited := true },
      [ArtCmd.setGainsCmd (some fun _ _ => 0) (some fun _ _ => 0)])

/-- `_initialize_refs` (lines 240-256). -/
def initRefs {R C : Nat} (ctrl : OmniJntImpCntrl R C) :
    OmniJntImpCntrl R C × List (ArtCmd R C) :=
  if ctrl.refsInited then (ctrl, [])
  else if !ctrl.overrideArt then
    ({ ctrl with refsInited := true },
      [ArtCmd.setJointEfforts ctrl.effRef,
       ArtCmd.setJointPosTargets ctrl.posRef,
       ArtCmd.setJointVelTargets ctrl.velRef])
  else
    ({ ctrl with refsInited := true }, [ArtCmd.setJointEfforts ctrl.effRef])

/-- The impedance effort law of `apply_cmds` (lines 874-879):
`imp_eff = eff_ref + (pos_gains * (pos_ref - pos) + vel_gains * (vel_ref - vel))`. -/
def impEffLaw {R C : Nat} (pg vg er pr vr p v : Buf R C ℚ) : Buf R C ℚ :=
  fun r c => er r c + (pg r c * (pr r c - p r c) + vg r c * (vr r c - v r c))

/-- `apply_cmds` (lines 817-884).  With filtering requested and a filter
bank available, the source updates the three reference filters and then
reads the attribute `vel_ref_filter` — which was never assigned (the
field is `_vel_ref_filter`) — so both the override and the non-override
arm raise `AttributeError` (lines 839 and 846); in the non-override arm
the position-target command is issued just before the raise.  Without
filtering, override mode computes the impedance effort and issues it as
the sole command; native mode forwards the three raw reference
buffers. -/
def applyCmds {R C : Nat} (ctrl : OmniJntImpCntrl R C) (useFilter : Bool) :
    Except PyErr (OmniJntImpCntrl R C × List (ArtCmd R C)) :=
  let g := initGains ctrl
  let r := initRefs g.1
  let c2 := r.1
  let cmds0 := g.2 ++ r.2
  if useFilter && c2.filterAvailable then
    Except.error PyErr.attributeError
  else
    if !c2.overrideArt then
      Except.ok (c2, cmds0 ++
        [ArtCmd.setJointEfforts c2.effRef,
         ArtCmd.setJointPosTargets c2.posRef,
         ArtCmd.setJointVelTargets c2.velRef])
    else
      let pe := fun r c => c2.posRef r c - c2.pos r c
      let ve := fun r c => c2.velRef r c - c2.vel r c
      let ie := impEffLaw c2.posGains c2.velGains c2.effRef c2.posRef c2.velRef c2.pos c2.vel
      Except.ok ({ c2 with posErr := pe, velErr := ve, impEffBuf := ie },
        cmds0 ++ [ArtCmd.setJointEfforts ie])

/-!  Homing resolver (`OmniRobotHomer`, homing.py).  -/

/-- Python-dict insertion: replace in place if the key exists, else
append (insertion order is preserved, later values overwrite earlier
ones for the same key). -/
def dictInsert (m : List (String × ℚ)) (k : String) (v : ℚ) : List (String × ℚ) :=
  if m.any (fun p => p.1 = k) then
    m.map (fun p => if p.1 = k then (k, v) else p)
  else m ++ [(k, v)]

/-- `_homing_map` built from the document's `group_state[name=home]`
joint entries (homing.py, lines 102-107), with dict semantics. -/
def parseHoming (entries : List (String × ℚ)) : List (String × ℚ) :=
  entries.foldl (fun m e => dictInsert m e.1 e.2) []

/-- First value bound to `k`, if any. -/
def lookupQ : List (String × ℚ) → String → Option ℚ
  | [], _ => none
  | p :: rest, k => if p.1 = k then some p.2 else lookupQ rest k

/-- `joint_idx_map` (homing.py, lines 57-60): built by `map[name] = i`
for `i` ascending, so on duplicate names the last index wins. -/
def jointIdxMap (names : List String) (j : String) : Option Nat :=
  lastIdxOf names j

/-- `OmniRobotHomer.__init__` + `_assign2homing` (homing.py, lines 68-124):
start from the all-zero buffer and, for every joint of the homing map in
order, broadcast its scalar down the column `joint_idx_map[joint]`;
joints absent from the articulation are skipped (with a warning). -/
def resolveHoming (R : Nat) (names : List String) (entries : List (String × ℚ)) :
    Buf R names.length ℚ :=
  (parseHoming entries).foldl
    (fun buf kv =>
      match jointIdxMap names kv.1 with
      | some j => fun r c => if c.val = j then kv.2 else buf r c
      | none => buf)
    (fun _ _ => 0)

/-!  State synchronizer (`CustomTask._get_robots_state`, custom_task.py,
lines 564-627).  The per-robot loop body is independent across robots, so
one robot's buffers are modelled; each buffer is a function over an
abstract index type (`P` for the [envs, 3] root position/velocity rows,
`Q` for the [envs, 4] quaternion rows, `J` for the [envs, n_dofs] joint
rows).  `quat_to_omega` lives in omni_robo_gym/utils/math_utils.py, which
is outside the provided sources, so it is passed as a parameter.  -/

/-- The mutable per-robot buffers of the task. -/
structure RobState (P Q J : Type) where
  rootP : P → ℚ
  rootQ : Q → ℚ
  jntsQ : J → ℚ
  rootPprev : P → ℚ
  rootQprev : Q → ℚ
  jntsQprev : J → ℚ
  rootV : P → ℚ
  rootOmega : P → ℚ
  jntsV : J → ℚ

/-- What the articulation readback returns on one tick. -/
structure RobObs (P Q J : Type) where
  poseP : P → ℚ
  poseQ : Q → ℚ
  jntsQ : J → ℚ
  linV : P → ℚ
  angV : P → ℚ
  jntsV : J → ℚ

/-- `_get_robots_state`: refresh pose and joint positions; with `dt`
absent read velocities directly; with `dt` present differentiate
numerically unless this is a reset tick (then zero the velocities), and
in either case refresh the `prev` buffers from the new state. -/
def getRobotsState {P Q J : Type}
    (quatToOmega : (Q → ℚ) → (Q → ℚ) → ℚ → (P → ℚ))
    (s : RobState P Q J) (obs : RobObs P Q J) (dt : Option ℚ) (reset : Bool) :
    RobState P Q J :=
  let s1 := { s with rootP := obs.poseP, rootQ := obs.poseQ, jntsQ := obs.jntsQ }
  match dt with
  | none =>
    { s1 with rootV := obs.linV, rootOmega := obs.angV, jntsV := obs.jntsV }
  | some d =>
    let s2 :=
      if !reset then
        { s1 with
          rootV := fun i => (s1.rootP i - s1.rootPprev i) / d
          rootOmega := quatToOmega s1.rootQ s1.rootQprev d
          jntsV := fun i => (s1.jntsQ i - s1.jntsQprev i) / d }
      else
        { s1 with
          rootV := fun _ => 0
          rootOmega := fun _ => 0
          jntsV := fun _ => 0 }
    { s2 with rootPprev := s2.rootP, rootQprev := s2.rootQ, jntsQprev := s2.jntsQ }

/-!  Concrete fixtures used by counterexamples and witnesses.  -/

/-- A filter record standing in for the absent filter attributes of a
controller built without `filter_dt`. -/
def noFilter (R C : Nat) : FirstOrderFilter R C ℚ :=
  { dt := 0, filterBW := 0, gain := 0, kh2 := 0, coeffRef := 0, coeffKm1 := 0,
    yk := fun _ _ => 0, ykm1 := fun _ _ => 0,
    refk := fun _ _ => 0, refkm1 := fun _ _ => 0 }

/-- A 2-robot, 3-joint controller on the CPU in override mode, with the
default gains 300/30 and all other buffers zero (the state right after
`reset()`). -/
def ctrl2x3 : OmniJntImpCntrl 2 3 :=
  { device := TDevice.cpu
    overrideArt := true
    gainsInited := false
    refsInited := false
    filterAvailable := false
    posGains := fun _ _ => 300
    velGains := fun _ _ => 30
    effRef := fun _ _ => 0
    posRef := fun _ _ => 0
    velRef := fun _ _ => 0
    pos := fun _ _ => 0
    vel := fun _ _ => 0
    eff := fun _ _ => 0
    posErr := fun _ _ => 0
    velErr := fun _ _ => 0
    impEffBuf := fun _ _ => 0
    posRefFilter := noFilter 2 3
    velRefFilter := noFilter 2 3
    effRefFilter := noFilter 2 3 }

/-- Out-of-bounds joint selector: index 5 on a 3-joint buffer. -/
def jnt5 : IdxTensor :=
  { shape := [1], vals := [5], dtype := TDtype.int64, device := TDevice.cpu }

/-- A full-buffer-shaped signal (2 × 3, all ones, on the CPU). -/
def sigFull : Signal :=
  { rows := 2, cols := 3, data := fun _ _ => 1, device := TDevice.cpu }

/-- Duplicated but in-bounds robot selector `[0, 0]` (1-D, int64, CPU). -/
def dupRobots : IdxTensor :=
  { shape := [2], vals := [0, 0], dtype := TDtype.int64, device := TDevice.cpu }

/-- Unique, non-negative, in-bounds robot selector `[1, 0]` of dtype
int32. -/
def i32Robots : IdxTensor :=
  { shape := [2], vals := [1, 0], dtype := TDtype.int32, device := TDevice.cpu }

/-- The concrete gain write of the spec scenario: `[[5, 7]]`. -/
def sig57 : Signal :=
  { rows := 1, cols := 2, data := fun _ c => if c = 0 then 5 else 7, device := TDevice.cpu }

/-- Robot selector `[1]`. -/
def rob1 : IdxTensor :=
  { shape := [1], vals := [1], dtype := TDtype.int64, device := TDevice.cpu }

/-- Joint selector `[0, 2]`. -/
def jnt02 : IdxTensor :=
  { shape := [2], vals := [0, 2], dtype := TDtype.int64, device := TDevice.cpu }

/-- A 1 × 1-shaped signal (wrong shape for the full 2 × 3 buffer). -/
def sig1x1 : Signal :=
  { rows := 1, cols := 1, data := fun _ _ => 9, device := TDevice.cpu }

/-- `new` agrees with the written signal on every cell of the Cartesian
product of the two index lists and with `old` everywhere else. -/
def WritesExactly {R C : Nat} (old new : Buf R C ℚ) (rl jl : List Int)
    (sig : Signal) : Prop :=
  ∀ (r : Fin R) (c : Fin C),
    (∀ i j (hi : i < rl.length) (hj : j < jl.length),
      rl.get ⟨i, hi⟩ = Int.ofNat r.val → jl.get ⟨j, hj⟩ = Int.ofNat c.val →
      new r c = sig.data i j) ∧
    ((Int.ofNat r.val ∉ rl ∨ Int.ofNat c.val ∉ jl) → new r c = old r c)

/-- A concrete 1-robot, 1-joint override-mode controller with eff_ref 2,
pos_gain 3, pos_ref 5, pos 1, vel_gain 4, vel_ref 7, vel 6 (the commanded
impedance effort is 2 + 3·4 + 4·1 = 18). -/
def ctrl1x1 : OmniJntImpCntrl 1 1 :=
  { device := TDevice.cpu
    overrideArt := true
    gainsInited := true
    refsInited := true
    filterAvailable := false
    posGains := fun _ _ => 3
    velGains := fun _ _ => 4
    effRef := fun _ _ => 2
    posRef := fun _ _ => 5
    velRef := fun _ _ => 7
    pos := fun _ _ => 1
    vel := fun _ _ => 6
    eff := fun _ _ => 0
    posErr := fun _ _ => 0
    velErr := fun _ _ => 0
    impEffBuf := fun _ _ => 0
    posRefFilter := noFilter 1 1
    velRefFilter := noFilter 1 1
    effRefFilter := noFilter 1 1 }

/-- A 1-robot, 1-joint controller with an available filter bank. -/
def ctrlFilt : OmniJntImpCntrl 1 1 :=
  { device := TDevice.cpu
    overrideArt := true
    gainsInited := true
    refsInited := true
    filterAvailable := true
    posGains := fun _ _ => 3
    velGains := fun _ _ => 4
    effRef := fun _ _ => 2
    posRef := fun _ _ => 5
    velRef := fun _ _ => 7
    pos := fun _ _ => 1
    vel := fun _ _ => 6
    eff := fun _ _ => 0
    posErr := fun _ _ => 0
    velErr := fun _ _ => 0
    impEffBuf := fun _ _ => 0
    posRefFilter := noFilter 1 1
    velRefFilter := noFilter 1 1
    effRefFilter := noFilter 1 1 }

/-!  Helper lemmas.  -/

theorem initGains_fields {R C : Nat} (ctrl : OmniJntImpCntrl R C) :
    (initGains ctrl).1.device = ctrl.device ∧
    (initGains ctrl).1.overrideArt = ctrl.overrideArt ∧
    (initGains ctrl).1.refsInited = ctrl.refsInited ∧
    (initGains ctrl).1.filterAvailable = ctrl.filterAvailable ∧
    (initGains ctrl).1.posGains = ctrl.posGains ∧
    (initGains ctrl).1.velGains = ctrl.velGains ∧
    (initGains ctrl).1.effRef = ctrl.effRef ∧
    (initGains ctrl).1.posRef = ctrl.posRef ∧
    (initGains ctrl).1.velRef = ctrl.velRef ∧
    (initGains ctrl).1.pos = ctrl.pos ∧
    (initGains ctrl).1.vel = ctrl.vel := by
  unfold initGains
  split
  · simp
  · split <;> simp

theorem initRefs_fields {R C : Nat} (ctrl : OmniJntImpCntrl R C) :
    (initRefs ctrl).1.device = ctrl.device ∧
    (initRefs ctrl).1.overrideArt = ctrl.overrideArt ∧
    (initRefs ctrl).1.filterAvailable = ctrl.filterAvailable ∧
    (initRefs ctrl).1.posGains = ctrl.posGains ∧
    (initRefs ctrl).1.velGains = ctrl.velGains ∧
    (initRefs ctrl).1.effRef = ctrl.effRef ∧
    (initRefs ctrl).1.posRef = ctrl.posRef ∧
    (initRefs ctrl).1.velRef = ctrl.velRef ∧
    (initRefs ctrl).1.pos = ctrl.pos ∧
    (initRefs ctrl).1.vel = ctrl.vel := by
  unfold initRefs
  split
  · simp
  · split <;> simp

/-- C1: In override mode, `apply_cmds` without filtering computes the
impedance effort `eff_ref + pos_gain * (pos_ref − pos) + vel_gain *
(vel_ref − vel)` elementwise, issues it as the final articulation
command, reduces to `eff_ref` when both gain buffers vanish, and reduces
to pure PD when the effort reference vanishes. -/
theorem apply_cmds_effort_law {R C : Nat} (ctrl : OmniJntImpCntrl R C)
    (h : ctrl.overrideArt = true) :
    ∃ ctrl2 cmds,
      applyCmds ctrl false = Except.ok (ctrl2, cmds) ∧
      (∀ r c, ctrl2.impEffBuf r c =
        ctrl.effRef r c + ctrl.posGains r c * (ctrl.posRef r c - ctrl.pos r c)
          + ctrl.velGains r c * (ctrl.velRef r c - ctrl.vel r c)) ∧
      cmds.getLast? = some (ArtCmd.setJointEfforts ctrl2.impEffBuf) ∧
      ((∀ r c, ctrl.posGains r c = 0) → (∀ r c, ctrl.velGains r c = 0) →
        ctrl2.impEffBuf = ctrl.effRef) ∧
      ((∀ r c, ctrl.effRef r c = 0) →
        ∀ r c, ctrl2.impEffBuf r c =
          ctrl.posGains r c * (ctrl.posRef r c - ctrl.pos r c)
            + ctrl.velGains r c * (ctrl.velRef r c - ctrl.vel r c)) := by
  obtain ⟨hd, ho, -, hf, hpg, hvg, her, hpr, hvr, hp, hv⟩ :=
    initGains_fields ctrl
  obtain ⟨-, ho2, -, hpg2, hvg2, her2, hpr2, hvr2, hp2, hv2⟩ :=
    initRefs_fields (initGains ctrl).1
  set c2 := (initRefs (initGains ctrl).1).1 with hc2
  have hov : c2.overrideArt = true := by rw [ho2, ho, h]
  have hPG : c2.posGains = ctrl.posGains := by rw [hpg2, hpg]
  have hVG : c2.velGains = ctrl.velGains := by rw [hvg2, hvg]
  have hER : c2.effRef = ctrl.effRef := by rw [her2, her]
  have hPR : c2.posRef = ctrl.posRef := by rw [hpr2, hpr]
  have hVR : c2.velRef = ctrl.velRef := by rw [hvr2, hvr]
  have hP : c2.pos = ctrl.pos := by rw [hp2, hp]
  have hV : c2.vel = ctrl.vel := by rw [hv2, hv]
  have happ : applyCmds ctrl false =
      Except.ok ({ c2 with
          posErr := fun r c => c2.posRef r c - c2.pos r c
          velErr := fun r c => c2.velRef r c - c2.vel r c
          impEffBuf := impEffLaw c2.posGains c2.velGains c2.effRef c2.posRef c2.velRef c2.pos c2.vel },
        ((initGains ctrl).2 ++ (initRefs (initGains ctrl).1).2) ++
          [ArtCmd.setJointEfforts (impEffLaw c2.posGains c2.velGains c2.effRef c2.posRef c2.velRef c2.pos c2.vel)]) := by
    rw [applyCmds]
    simp only [Bool.false_and, if_neg (by simp : ¬(false = true)), hov,
      Bool.not_true, ← hc2]
  refine ⟨_, _, happ, ?_, ?_, ?_, ?_⟩
  · intro r c
    simp only [impEffLaw, hPG, hVG, hER, hPR, hVR, hP, hV]
    ring
  · simp
  · intro hzp hzv
    funext r c
    simp only [impEffLaw, hPG, hVG, hER, hPR, hVR, hP, hV, hzp, hzv]
    ring
  · intro hze r c
    simp only [impEffLaw, hPG, hVG, hER, hPR, hVR, hP, hV, hze]
    ring

theorem apply_cmds_effort_law_witness :
    ctrl1x1.overrideArt = true ∧
    (∃ ctrl2 cmds,
      applyCmds ctrl1x1 false = Except.ok (ctrl2, cmds) ∧
      (∀ r c, ctrl2.impEffBuf r c =
        ctrl1x1.effRef r c + ctrl1x1.posGains r c * (ctrl1x1.posRef r c - ctrl1x1.pos r c)
          + ctrl1x1.velGains r c * (ctrl1x1.velRef r c - ctrl1x1.vel r c)) ∧
      cmds.getLast? = some (ArtCmd.setJointEfforts ctrl2.impEffBuf) ∧
      ((∀ r c, ctrl1x1.posGains r c = 0) → (∀ r c, ctrl1x1.velGains r c = 0) →
        ctrl2.impEffBuf = ctrl1x1.effRef) ∧
      ((∀ r c, ctrl1x1.effRef r c = 0) →
        ∀ r c, ctrl2.impEffBuf r c =
          ctrl1x1.posGains r c * (ctrl1x1.posRef r c - ctrl1x1.pos r c)
            + ctrl1x1.velGains r c * (ctrl1x1.velRef r c - ctrl1x1.vel r c))) :=
  ⟨rfl, apply_cmds_effort_law ctrl1x1 rfl⟩

theorem update_spec {R C : Nat} {α : Type} [Field α]
    (f : FirstOrderFilter R C α) (ref : Buf R C α) :
    (f.update (some ref)).yk =
      (fun r c => f.ykm1 r c * f.coeffKm1 + (ref r c + f.refkm1 r c) * f.coeffRef) ∧
    (f.update (some ref)).refkm1 = ref ∧
    (f.update (some ref)).ykm1 = (f.update (some ref)).yk ∧
    (f.update (some ref)).refk = ref :=
  ⟨rfl, rfl, rfl, rfl⟩

theorem init_coeffs (R C : Nat) {α : Type} [Field α] (piVal dt BW : α) :
    (FirstOrderFilter.init R C piVal dt BW).coeffKm1 =
      (1 - 2 * piVal * BW * dt / 2) / (1 + 2 * piVal * BW * dt / 2) ∧
    (FirstOrderFilter.init R C piVal dt BW).coeffRef =
      (2 * piVal * BW * dt / 2) / (1 + 2 * piVal * BW * dt / 2) := by
  constructor
  · rfl
  · show 2 * piVal * BW * dt / 2 * 1 / (1 + 2 * piVal * BW * dt / 2) = _
    rw [mul_one]

theorem runFilter_coeffs {R C : Nat} {α : Type} [Field α]
    (f0 : FirstOrderFilter R C α) (refs : List (Buf R C α)) :
    (runFilter f0 refs).coeffKm1 = f0.coeffKm1 ∧
    (runFilter f0 refs).coeffRef = f0.coeffRef := by
  induction refs generalizing f0 with
  | nil => exact ⟨rfl, rfl⟩
  | cons a rest ih => exact ih (f0.update (some a))

/-- C2: for every tick period `dt` and bandwidth `BW`, and every sequence
of reference inputs, each `update` call of a `FirstOrderFilter`
constructed with those parameters produces
`y_k = y_{k-1}·(1 − K·dt/2)/(1 + K·dt/2) + (ref_k + ref_{k-1})·(K·dt/2)/(1 + K·dt/2)`
with `K = 2·π·BW`, and then shifts the current reference and output into
the previous-reference and previous-output buffers. -/
theorem first_order_filter_bilinear (R C : Nat) (dt BW : ℝ)
    (refs : List (Buf R C ℝ)) (ref : Buf R C ℝ) :
    (∀ r c,
      ((runFilter (FirstOrderFilter.init R C Real.pi dt BW) refs).update (some ref)).yk r c =
        (runFilter (FirstOrderFilter.init R C Real.pi dt BW) refs).ykm1 r c *
          ((1 - 2 * Real.pi * BW * dt / 2) / (1 + 2 * Real.pi * BW * dt / 2)) +
        (ref r c + (runFilter (FirstOrderFilter.init R C Real.pi dt BW) refs).refkm1 r c) *
          ((2 * Real.pi * BW * dt / 2) / (1 + 2 * Real.pi * BW * dt / 2))) ∧
    ((runFilter (FirstOrderFilter.init R C Real.pi dt BW) refs).update (some ref)).refkm1 = ref ∧
    ((runFilter (FirstOrderFilter.init R C Real.pi dt BW) refs).update (some ref)).ykm1 =
      ((runFilter (FirstOrderFilter.init R C Real.pi dt BW) refs).update (some ref)).yk ∧
    ((runFilter (FirstOrderFilter.init R C Real.pi dt BW) refs).update (some ref)).refk = ref := by
  obtain ⟨hc1, hc2⟩ := runFilter_coeffs (FirstOrderFilter.init R C Real.pi dt BW) refs
  obtain ⟨hi1, hi2⟩ := init_coeffs R C Real.pi dt BW
  obtain ⟨hyk, hrefkm1, hykm1, hrefk⟩ :=
    update_spec (runFilter (FirstOrderFilter.init R C Real.pi dt BW) refs) ref
  refine ⟨?_, hrefkm1, hykm1, hrefk⟩
  intro r c
  rw [hyk]
  rw [hc1, hc2, hi1, hi2]

/-- C5: the claim says a `set_gains` call providing only `vel_gains`
validates that tensor and returns per-field flags without raising; the
source instead validates `pos_gains` (which is `None`) in the
`vel_gains` branch (jnt_imp_cntrl.py, line 725), so the call raises
`AttributeError` for every controller, signal and selector. -/
theorem set_gains_vel_only_raises {R C : Nat} (ctrl : OmniJntImpCntrl R C)
    (vg : Signal) (robot? jnt? : Option IdxTensor) :
    setGains ctrl none (some vg) robot? jnt? = Except.error PyErr.attributeError := rfl

/-- C6: the claim says `apply_cmds` with filtering requested completes
without raising and issues commands computed from the filtered
references; the source reads the never-assigned attribute
`vel_ref_filter` (the field is `_vel_ref_filter`, jnt_imp_cntrl.py,
lines 839 and 846), so every controller with an available filter bank
raises `AttributeError` instead. -/
theorem apply_cmds_filter_attribute_error {R C : Nat}
    (ctrl : OmniJntImpCntrl R C) (h : ctrl.filterAvailable = true) :
    applyCmds ctrl true = Except.error PyErr.attributeError := by
  have h1 := (initGains_fields ctrl).2.2.2.1
  have h2 := (initRefs_fields (initGains ctrl).1).2.2.1
  rw [applyCmds]
  simp only [h2, h1, h, Bool.true_and, if_true]

theorem apply_cmds_filter_attribute_error_witness :
    ctrlFilt.filterAvailable = true ∧
    applyCmds ctrlFilt true = Except.error PyErr.attributeError :=
  ⟨rfl, apply_cmds_filter_attribute_error ctrlFilt rfl⟩

/-- C8: with numerical differentiation active (`dt` provided), a reset
tick forces the root linear velocity, the root angular velocity and the
joint velocities to zero regardless of the previous state and refreshes
the previous-position/orientation buffers from the newly read state; the
following non-reset tick differentiates against the state captured at
the reset tick (`(x_t − x_{t−1})/dt` for root and joint positions, and
the quaternion-difference angular rate applied to the reset-captured
orientation). -/
theorem reset_tick_differentiation {P Q J : Type}
    (qto : (Q → ℚ) → (Q → ℚ) → ℚ → (P → ℚ))
    (s : RobState P Q J) (obs1 obs2 : RobObs P Q J) (d : ℚ) :
    (getRobotsState qto s obs1 (some d) true).rootV = (fun _ => 0) ∧
    (getRobotsState qto s obs1 (some d) true).rootOmega = (fun _ => 0) ∧
    (getRobotsState qto s obs1 (some d) true).jntsV = (fun _ => 0) ∧
    (getRobotsState qto s obs1 (some d) true).rootPprev = obs1.poseP ∧
    (getRobotsState qto s obs1 (some d) true).rootQprev = obs1.poseQ ∧
    (getRobotsState qto s obs1 (some d) true).jntsQprev = obs1.jntsQ ∧
    (getRobotsState qto (getRobotsState qto s obs1 (some d) true) obs2 (some d) false).rootV =
      (fun i => (obs2.poseP i - obs1.poseP i) / d) ∧
    (getRobotsState qto (getRobotsState qto s obs1 (some d) true) obs2 (some d) false).rootOmega =
      qto obs2.poseQ obs1.poseQ d ∧
    (getRobotsState qto (getRobotsState qto s obs1 (some d) true) obs2 (some d) false).jntsV =
      (fun i => (obs2.jntsQ i - obs1.jntsQ i) / d) :=
  ⟨rfl, rfl, rfl, rfl, rfl, rfl, rfl, rfl, rfl⟩

theorem lastIdxOf_eq_none {α : Type} [DecidableEq α] (l : List α) (x : α) :
    lastIdxOf l x = none ↔ x ∉ l := by
  induction l with
  | nil => simp [lastIdxOf]
  | cons a rest ih =>
    rw [lastIdxOf]
    cases h : lastIdxOf rest x with
    | some i =>
      have hx : x ∈ rest := by
        by_contra hc
        rw [ih.mpr hc] at h
        exact Option.noConfusion h
      simp [List.mem_cons, hx]
    | none =>
      have hx : x ∉ rest := ih.mp h
      by_cases hax : a = x
      · subst hax
        simp
      · simp [hax, hx, List.mem_cons]
        intro hc
        exact hax hc.symm

theorem lastIdxOf_some {α : Type} [DecidableEq α] (l : List α) (x : α) (i : Nat)
    (h : lastIdxOf l x = some i) : ∃ hi : i < l.length, l.get ⟨i, hi⟩ = x := by
  induction l generalizing i with
  | nil => exact Option.noConfusion h
  | cons a rest ih =>
    rw [lastIdxOf] at h
    cases h2 : lastIdxOf rest x with
    | some k =>
      rw [h2] at h
      have h3 : k + 1 = i := by injection h
      obtain ⟨hk, hg⟩ := ih k h2
      subst h3
      exact ⟨Nat.succ_lt_succ hk, hg⟩
    | none =>
      rw [h2] at h
      by_cases hax : a = x
      · rw [if_pos hax] at h
        have h3 : (0 : Nat) = i := by injection h
        subst h3
        exact ⟨Nat.succ_pos _, hax⟩
      · rw [if_neg hax] at h
        exact Option.noConfusion h

theorem lastIdxOf_of_get {α : Type} [DecidableEq α] (l : List α) (hN : l.Nodup)
    (i : Nat) (hi : i < l.length) : lastIdxOf l (l.get ⟨i, hi⟩) = some i := by
  induction l generalizing i with
  | nil => exact absurd hi (Nat.not_lt_zero i)
  | cons a rest ih =>
    obtain ⟨ha, hrest⟩ := List.nodup_cons.mp hN
    cases i with
    | zero =>
      show lastIdxOf (a :: rest) a = some 0
      rw [lastIdxOf, (lastIdxOf_eq_none rest a).mpr ha]
      simp
    | succ k =>
      have hk : k < rest.length := Nat.lt_of_succ_lt_succ hi
      show lastIdxOf (a :: rest) (rest.get ⟨k, hk⟩) = some (k + 1)
      rw [lastIdxOf, ih hrest k hk]

theorem lookupQ_eq_none_of_not_mem (m : List (String × ℚ)) (k : String)
    (h : k ∉ m.map Prod.fst) : lookupQ m k = none := by
  induction m with
  | nil => rfl
  | cons p rest ih =>
    rw [List.map_cons, List.mem_cons] at h
    obtain ⟨h1, h2⟩ := not_or.mp h
    rw [lookupQ, if_neg fun hc => h1 hc.symm]
    exact ih h2

theorem dictInsert_keys_nodup (m : List (String × ℚ)) (k : String) (v : ℚ)
    (h : (m.map Prod.fst).Nodup) : ((dictInsert m k v).map Prod.fst).Nodup := by
  rw [dictInsert]
  split
  · have heq : (m.map (fun p => if p.1 = k then (k, v) else p)).map Prod.fst
        = m.map Prod.fst := by
      rw [List.map_map]
      refine List.map_congr_left fun p _ => ?_
      by_cases hpk : p.1 = k <;> simp [hpk]
    rw [heq]
    exact h
  · rename_i hnone
    have hk : k ∉ m.map Prod.fst := by
      intro hc
      apply hnone
      obtain ⟨p, hp, hpk⟩ := List.mem_map.mp hc
      exact List.any_eq_true.mpr ⟨p, hp, decide_eq_true hpk⟩
    simp [List.nodup_append, h, hk]

theorem parseHoming_keys_nodup (entries : List (String × ℚ)) :
    ((parseHoming entries).map Prod.fst).Nodup := by
  rw [parseHoming]
  suffices h : ∀ m : List (String × ℚ), (m.map Prod.fst).Nodup →
      ((entries.foldl (fun m e => dictInsert m e.1 e.2) m).map Prod.fst).Nodup from
    h [] (by simp)
  induction entries with
  | nil => exact fun m hm => hm
  | cons e rest ih => exact fun m hm => ih _ (dictInsert_keys_nodup m e.1 e.2 hm)

theorem homingFold_lookup (R : Nat) (names : List String) (hN : names.Nodup)
    (hm : List (String × ℚ)) (hK : (hm.map Prod.fst).Nodup)
    (buf : Buf R names.length ℚ) (r : Fin R) (c : Fin names.length) :
    (hm.foldl
        (fun buf kv =>
          match jointIdxMap names kv.1 with
          | some j => fun r c => if c.val = j then kv.2 else buf r c
          | none => buf)
        buf) r c
      = (lookupQ hm (names.get c)).getD (buf r c) := by
  induction hm generalizing buf with
  | nil => rfl
  | cons kv rest ih =>
    rw [List.map_cons] at hK
    obtain ⟨hk1, hkrest⟩ := List.nodup_cons.mp hK
    rw [List.foldl_cons, ih hkrest, lookupQ]
    by_cases hkey : kv.1 = names.get c
    · rw [if_pos hkey, lookupQ_eq_none_of_not_mem rest (names.get c) (hkey ▸ hk1)]
      have hj : jointIdxMap names kv.1 = some c.val := by
        rw [jointIdxMap, hkey]
        have := lastIdxOf_of_get names hN c.val c.isLt
        simpa using this
      simp [hj]
    · rw [if_neg hkey]
      cases hl : lookupQ rest (names.get c) with
      | some v => simp [hl]
      | none =>
        simp only [hl, Option.getD_none]
        cases hj : jointIdxMap names kv.1 with
        | none => simp [hj]
        | some j =>
          obtain ⟨hjlt, hjget⟩ := lastIdxOf_some names kv.1 j hj
          have hne : c.val ≠ j := by
            intro hc
            apply hkey
            rw [← hjget]
            congr 1
            exact Fin.ext hc.symm
          simp [hj, hne]

/-- C7: the resolved homing buffer carries, at every robot row, the
document's scalar in the column of each joint present in both the homing
document and the articulation, and 0 in the column of each joint absent
from the document; document joints absent from the articulation change
no column. -/
theorem homing_resolution (R : Nat) (names : List String)
    (entries : List (String × ℚ)) (hN : names.Nodup) :
    ∀ (r : Fin R) (c : Fin names.length),
      resolveHoming R names entries r c
        = (lookupQ (parseHoming entries) (names.get c)).getD 0 := by
  intro r c
  rw [resolveHoming]
  exact homingFold_lookup R names hN (parseHoming entries)
    (parseHoming_keys_nodup entries) _ r c

theorem homing_resolution_witness :
    (["hip", "knee", "wheel"].Nodup) ∧
    (∀ (r : Fin 2) (c : Fin 3),
      resolveHoming 2 ["hip", "knee", "wheel"] [("hip", 3/10), ("knee", -(6/10))] r c
        = (lookupQ (parseHoming [("hip", 3/10), ("knee", -(6/10))])
            (["hip", "knee", "wheel"].get c)).getD 0) ∧
    (∀ (r : Fin 2) (c : Fin 3),
      resolveHoming 2 ["hip", "knee", "wheel"] [("hip", 3/10), ("knee", -(6/10))] r c
        = if c.val = 0 then (3 : ℚ)/10 else if c.val = 1 then -(6/10) else 0) := by
  refine ⟨by decide, homing_resolution 2 ["hip", "knee", "wheel"]
    [("hip", 3/10), ("knee", -(6/10))] (by decide), ?_⟩
  intro r c
  have h := homing_resolution 2 ["hip", "knee", "wheel"]
    [("hip", 3/10), ("knee", -(6/10))] (by decide) r c
  rw [h]
  fin_cases c <;> rfl

theorem foldl_min_le_init (l : List Int) (a : Int) : l.foldl min a ≤ a := by
  induction l generalizing a with
  | nil => exact le_refl a
  | cons b rest ih => exact le_trans (ih (min a b)) (min_le_left a b)

theorem foldl_min_le {l : List Int} {x : Int} (a : Int) (hx : x ∈ l) :
    l.foldl min a ≤ x := by
  induction l generalizing a with
  | nil => cases hx
  | cons b rest ih =>
    rw [List.foldl_cons]
    rcases List.mem_cons.mp hx with h1 | h2
    · subst h1
      exact le_trans (foldl_min_le_init rest (min a x)) (min_le_right a x)
    · exact ih (min a b) h2

theorem le_foldl_min (l : List Int) (a b : Int) (hb : b ≤ a)
    (h : ∀ x ∈ l, b ≤ x) : b ≤ l.foldl min a := by
  induction l generalizing a with
  | nil => exact hb
  | cons d rest ih =>
    rw [List.foldl_cons]
    exact ih (min a d) (le_min hb (h d (List.mem_cons_self d rest)))
      fun x hx => h x (List.mem_cons_of_mem d hx)

theorem le_foldl_max_init (l : List Int) (a : Int) : a ≤ l.foldl max a := by
  induction l generalizing a with
  | nil => exact le_refl a
  | cons b rest ih => exact le_trans (le_max_left a b) (ih (max a b))

theorem le_foldl_max {l : List Int} {x : Int} (a : Int) (hx : x ∈ l) :
    x ≤ l.foldl max a := by
  induction l generalizing a with
  | nil => cases hx
  | cons b rest ih =>
    rw [List.foldl_cons]
    rcases List.mem_cons.mp hx with h1 | h2
    · subst h1
      exact le_trans (le_max_right a x) (le_foldl_max_init rest (max a x))
    · exact ih (max a b) h2

theorem foldl_max_lt (l : List Int) (a b : Int) (ha : a < b)
    (h : ∀ x ∈ l, x < b) : l.foldl max a < b := by
  induction l generalizing a with
  | nil => exact ha
  | cons d rest ih =>
    rw [List.foldl_cons]
    exact ih (max a d) (max_lt ha (h d (List.mem_cons_self d rest)))
      fun x hx => h x (List.mem_cons_of_mem d hx)

theorem checkIdxTensor_valid_bounds (dev : TDevice) (bound : Nat) (t : IdxTensor)
    (h : checkIdxTensor dev bound t = IndxState.VALID) :
    ∀ v ∈ t.vals, 0 ≤ v ∧ v < (bound : Int) := by
  rw [checkIdxTensor] at h
  split at h
  · rename_i hcond
    obtain ⟨-, -, -, hmin, hmax⟩ := hcond
    intro v hv
    exact ⟨le_trans hmin (foldl_min_le _ hv), lt_of_le_of_lt (le_foldl_max _ hv) hmax⟩
  · exact absurd h (by simp)

theorem checkIdxTensor_valid_of (dev : TDevice) (bound : Nat) (t : IdxTensor)
    (h1 : t.shape.length = 1) (h2 : t.dtype = TDtype.int64)
    (h3 : t.device = dev) (h4 : t.vals ≠ [])
    (h5 : ∀ v ∈ t.vals, 0 ≤ v ∧ v < (bound : Int)) :
    checkIdxTensor dev bound t = IndxState.VALID := by
  rw [checkIdxTensor, if_pos]
  refine ⟨h1, h2, h3, ?_, ?_⟩
  · rw [tmin]
    cases hv : t.vals with
    | nil => exact absurd hv h4
    | cons a rest =>
      rw [List.headD_cons]
      exact le_foldl_min (a :: rest) a 0 (h5 a (hv ▸ List.mem_cons_self a rest)).1
        fun x hx => (h5 x (hv ▸ hx)).1
  · rw [tmax]
    cases hv : t.vals with
    | nil => exact absurd hv h4
    | cons a rest =>
      rw [List.headD_cons]
      exact foldl_max_lt (a :: rest) a _ (h5 a (hv ▸ List.mem_cons_self a rest)).2
        fun x hx => (h5 x (hv ▸ hx)).2

theorem assignSel_spec {R C : Nat} (buf : Buf R C ℚ) (rl jl : List Int)
    (sig : Signal) (hrN : rl.Nodup) (hjN : jl.Nodup) :
    WritesExactly buf (assignSel buf rl jl sig) rl jl sig := by
  intro r c
  constructor
  · intro i j hi hj hri hcj
    have h1 : lastIdxOf rl (Int.ofNat r.val) = some i := by
      rw [← hri]
      exact lastIdxOf_of_get rl hrN i hi
    have h2 : lastIdxOf jl (Int.ofNat c.val) = some j := by
      rw [← hcj]
      exact lastIdxOf_of_get jl hjN j hj
    show (match lastIdxOf rl (Int.ofNat r.val), lastIdxOf jl (Int.ofNat c.val) with
      | some i, some j => sig.data i j
      | some _, none => buf r c
      | none, some _ => buf r c
      | none, none => buf r c) = sig.data i j
    rw [h1, h2]
  · intro hout
    rcases hout with h | h
    · have h1 : lastIdxOf rl (Int.ofNat r.val) = none := (lastIdxOf_eq_none _ _).mpr h
      show (match lastIdxOf rl (Int.ofNat r.val), lastIdxOf jl (Int.ofNat c.val) with
        | some i, some j => sig.data i j
        | some _, none => buf r c
        | none, some _ => buf r c
        | none, none => buf r c) = buf r c
      rw [h1]
      cases lastIdxOf jl (Int.ofNat c.val) <;> rfl
    · have h2 : lastIdxOf jl (Int.ofNat c.val) = none := (lastIdxOf_eq_none _ _).mpr h
      show (match lastIdxOf rl (Int.ofNat r.val), lastIdxOf jl (Int.ofNat c.val) with
        | some i, some j => sig.data i j
        | some _, none => buf r c
        | none, some _ => buf r c
        | none, none => buf r c) = buf r c
      rw [h2]
      cases lastIdxOf rl (Int.ofNat r.val) <;> rfl

theorem assignSignal_pos_ref {R C : Nat} (ctrl : OmniJntImpCntrl R C) (sig : Signal)
    (rl jl : List Int) :
    assignSignal ctrl "pos_ref" sig (some (rl, jl))
      = some { ctrl with posRef := assignSel ctrl.posRef rl jl sig } := rfl

theorem assignSignal_pos {R C : Nat} (ctrl : OmniJntImpCntrl R C) (sig : Signal)
    (rl jl : List Int) :
    assignSignal ctrl "pos" sig (some (rl, jl))
      = some { ctrl with pos := assignSel ctrl.pos rl jl sig } := rfl

theorem assignSignal_pgain {R C : Nat} (ctrl : OmniJntImpCntrl R C) (sig : Signal)
    (rl jl : List Int) :
    assignSignal ctrl "pgain" sig (some (rl, jl))
      = some { ctrl with posGains := assignSel ctrl.posGains rl jl sig } := rfl

/-- C3: a selector-scoped setter call with valid robot and joint index
subsets and a `[|R|, |J|]`-shaped signal writes exactly the cells in the
Cartesian product of the two subsets of the targeted buffer and leaves
every other cell unchanged, succeeding with all-true flags — shown for
`set_refs` (pos_ref), `update_state` (pos) and `set_gains` (pos_gains). -/
theorem selector_scoped_write_exact {R C : Nat} (ctrl : OmniJntImpCntrl R C)
    (rT jT : IdxTensor) (sig : Signal)
    (hrV : checkIdxTensor ctrl.device R rT = IndxState.VALID)
    (hjV : checkIdxTensor ctrl.device C jT = IndxState.VALID)
    (hrN : rT.vals.Nodup) (hjN : jT.vals.Nodup)
    (hrows : sig.rows = rT.vals.length) (hcols : sig.cols = jT.vals.length)
    (hdev : sig.device = ctrl.device) :
    (setRefs ctrl none (some sig) none (some rT) (some jT)
        = ({ ctrl with posRef := assignSel ctrl.posRef rT.vals jT.vals sig },
           [true, true, true, true])
      ∧ WritesExactly ctrl.posRef
          (setRefs ctrl none (some sig) none (some rT) (some jT)).1.posRef
          rT.vals jT.vals sig) ∧
    (updateState ctrl (some sig) none none (some rT) (some jT)
        = ({ ctrl with pos := assignSel ctrl.pos rT.vals jT.vals sig },
           [true, true, true, true])
      ∧ WritesExactly ctrl.pos
          (updateState ctrl (some sig) none none (some rT) (some jT)).1.pos
          rT.vals jT.vals sig) ∧
    (∃ cmds, setGains ctrl (some sig) none (some rT) (some jT)
        = Except.ok ({ ctrl with posGains := assignSel ctrl.posGains rT.vals jT.vals sig },
            [true, true, true], cmds))
      ∧ WritesExactly ctrl.posGains (assignSel ctrl.posGains rT.vals jT.vals sig)
          rT.vals jT.vals sig := by
  have hsel : genSelector ctrl.device R C (some rT) (some jT) = some (rT.vals, jT.vals) := by
    simp [genSelector, hrV, hjV]
  have hval : validateSignal ctrl.device R C sig (some (rT.vals, jT.vals)) = true := by
    simp [validateSignal, hrows, hcols, hdev]
  have e1 : setRefs ctrl none (some sig) none (some rT) (some jT)
      = ({ ctrl with posRef := assignSel ctrl.posRef rT.vals jT.vals sig },
         [true, true, true, true]) := by
    simp only [setRefs, hsel, hval, assignSignal_pos_ref, if_true]
  have e2 : updateState ctrl (some sig) none none (some rT) (some jT)
      = ({ ctrl with pos := assignSel ctrl.pos rT.vals jT.vals sig },
         [true, true, true, true]) := by
    simp only [updateState, hsel, hval, assignSignal_pos, if_true]
  refine ⟨⟨e1, ?_⟩, ⟨e2, ?_⟩, ?_, assignSel_spec ctrl.posGains rT.vals jT.vals sig hrN hjN⟩
  · rw [e1]
    exact assignSel_spec ctrl.posRef rT.vals jT.vals sig hrN hjN
  · rw [e2]
    exact assignSel_spec ctrl.pos rT.vals jT.vals sig hrN hjN
  · by_cases hov : ctrl.overrideArt
    · refine ⟨[], ?_⟩
      simp only [setGains, hsel, hval, assignSignal_pgain, if_true, hov, Bool.not_true]
      simp
    · refine ⟨[ArtCmd.setGainsCmd (some (assignSel ctrl.posGains rT.vals jT.vals sig)) none], ?_⟩
      simp only [setGains, hsel, hval, assignSignal_pgain, if_true,
        Bool.not_eq_true', eq_false hov]
      simp [hov]

theorem selector_scoped_write_exact_witness :
    (checkIdxTensor ctrl2x3.device 2 rob1 = IndxState.VALID ∧
     checkIdxTensor ctrl2x3.device 3 jnt02 = IndxState.VALID ∧
     rob1.vals.Nodup ∧ jnt02.vals.Nodup ∧
     sig57.rows = rob1.vals.length ∧ sig57.cols = jnt02.vals.length ∧
     sig57.device = ctrl2x3.device) ∧
    ((setRefs ctrl2x3 none (some sig57) none (some rob1) (some jnt02)
        = ({ ctrl2x3 with posRef := assignSel ctrl2x3.posRef rob1.vals jnt02.vals sig57 },
           [true, true, true, true])
      ∧ WritesExactly ctrl2x3.posRef
          (setRefs ctrl2x3 none (some sig57) none (some rob1) (some jnt02)).1.posRef
          rob1.vals jnt02.vals sig57) ∧
    (updateState ctrl2x3 (some sig57) none none (some rob1) (some jnt02)
        = ({ ctrl2x3 with pos := assignSel ctrl2x3.pos rob1.vals jnt02.vals sig57 },
           [true, true, true, true])
      ∧ WritesExactly ctrl2x3.pos
          (updateState ctrl2x3 (some sig57) none none (some rob1) (some jnt02)).1.pos
          rob1.vals jnt02.vals sig57) ∧
    (∃ cmds, setGains ctrl2x3 (some sig57) none (some rob1) (some jnt02)
        = Except.ok ({ ctrl2x3 with posGains := assignSel ctrl2x3.posGains rob1.vals jnt02.vals sig57 },
            [true, true, true], cmds))
      ∧ WritesExactly ctrl2x3.posGains
          (assignSel ctrl2x3.posGains rob1.vals jnt02.vals sig57)
          rob1.vals jnt02.vals sig57) ∧
    (assignSel ctrl2x3.posGains rob1.vals jnt02.vals sig57 (1 : Fin 2) (0 : Fin 3) = 5 ∧
     assignSel ctrl2x3.posGains rob1.vals jnt02.vals sig57 (1 : Fin 2) (1 : Fin 3) = 300 ∧
     assignSel ctrl2x3.posGains rob1.vals jnt02.vals sig57 (1 : Fin 2) (2 : Fin 3) = 7 ∧
     assignSel ctrl2x3.posGains rob1.vals jnt02.vals sig57 (0 : Fin 2) (0 : Fin 3) = 300 ∧
     assignSel ctrl2x3.posGains rob1.vals jnt02.vals sig57 (0 : Fin 2) (1 : Fin 3) = 300 ∧
     assignSel ctrl2x3.posGains rob1.vals jnt02.vals sig57 (0 : Fin 2) (2 : Fin 3) = 300) :=
  ⟨⟨by decide, by decide, by decide, by decide, rfl, rfl, rfl⟩,
   selector_scoped_write_exact ctrl2x3 rob1 jnt02 sig57
     (by decide) (by decide) (by decide) (by decide) rfl rfl rfl,
   by decide, by decide, by decide, by decide, by decide, by decide⟩

theorem validateSignal_full_false (dev : TDevice) (RR CC : Nat) (sig : Signal)
    (hmis : ¬(sig.rows = RR ∧ sig.cols = CC ∧ sig.device = dev)) :
    validateSignal dev RR CC sig none = false := by
  rw [validateSignal]
  by_contra hb
  rw [Bool.not_eq_false] at hb
  apply hmis
  simp only [Bool.and_eq_true, beq_iff_eq] at hb
  exact ⟨hb.1.1, hb.1.2, hb.2⟩

/-- C4 counterexample: on a 2-robot, 3-joint controller, passing the
out-of-bounds joint selector `[5]` to `set_refs` together with a
full-buffer-shaped (2 × 3) position-reference signal returns all-true
success flags and overwrites the whole position-reference buffer — the
write is redirected, not refused. -/
theorem invalid_selector_fullshape_redirect_cex :
    (setRefs ctrl2x3 none (some sigFull) none none (some jnt5)).2
      = [true, true, true, true] ∧
    (setRefs ctrl2x3 none (some sigFull) none none (some jnt5)).1.posRef
      ≠ ctrl2x3.posRef ∧
    (setRefs ctrl2x3 none (some sigFull) none none (some jnt5)).1.posRef
      (0 : Fin 2) (0 : Fin 3) = 1 := by
  exact ⟨by decide, by decide, by decide⟩

/-- C4 (amended): a selector-scoped setter call whose provided joint
index subset is invalid returns a false success flag for the affected
field and leaves the controller entirely unchanged, provided the signal
does not match the full buffer shape and device (an invalid selector
resolves to "no selector", so a full-buffer-shaped signal is instead
silently redirected to the entire buffer with a true flag). -/
theorem invalid_selector_refused_amended {R C : Nat} (ctrl : OmniJntImpCntrl R C)
    (jT : IdxTensor) (sig : Signal) (robot? : Option IdxTensor)
    (hinv : checkIdxTensor ctrl.device C jT = IndxState.INVALID)
    (hmis : ¬(sig.rows = R ∧ sig.cols = C ∧ sig.device = ctrl.device)) :
    setRefs ctrl none (some sig) none robot? (some jT)
      = (ctrl, [true, false, true, true]) ∧
    updateState ctrl (some sig) none none robot? (some jT)
      = (ctrl, [false, true, true, true]) ∧
    setGains ctrl (some sig) none robot? (some jT)
      = Except.ok (ctrl, [false, true, true], []) := by
  have hsel : genSelector ctrl.device R C robot? (some jT) = none := by
    cases robot? with
    | none => simp [genSelector, hinv]
    | some rt => simp [genSelector, hinv]
  have hv : validateSignal ctrl.device R C sig none = false :=
    validateSignal_full_false ctrl.device R C sig hmis
  refine ⟨?_, ?_, ?_⟩
  · simp [setRefs, hsel, hv]
  · simp [updateState, hsel, hv]
  · simp [setGains, hsel, hv]

theorem invalid_selector_refused_amended_witness :
    (checkIdxTensor ctrl2x3.device 3 jnt5 = IndxState.INVALID ∧
     ¬(sig1x1.rows = 2 ∧ sig1x1.cols = 3 ∧ sig1x1.device = ctrl2x3.device)) ∧
    (setRefs ctrl2x3 none (some sig1x1) none none (some jnt5)
        = (ctrl2x3, [true, false, true, true]) ∧
     updateState ctrl2x3 (some sig1x1) none none none (some jnt5)
        = (ctrl2x3, [false, true, true, true]) ∧
     setGains ctrl2x3 (some sig1x1) none none (some jnt5)
        = Except.ok (ctrl2x3, [false, true, true], [])) :=
  ⟨⟨by decide, by decide⟩,
   invalid_selector_refused_amended ctrl2x3 jnt5 sig1x1 none (by decide) (by decide)⟩

/-- C9 counterexample: the duplicated but in-bounds robot subset `[0, 0]`
is classified VALID (not INVALID), and a `set_refs` through it does
update the position-reference buffer. -/
theorem duplicate_selector_valid_cex :
    checkIdxTensor TDevice.cpu 2 dupRobots = IndxState.VALID ∧
    ¬ dupRobots.vals.Nodup ∧
    (setRefs ctrl2x3 none (some sigFull) none (some dupRobots) none).2
      = [true, true, true, true] ∧
    (setRefs ctrl2x3 none (some sigFull) none (some dupRobots) none).1.posRef
      ≠ ctrl2x3.posRef := by
  exact ⟨by decide, by decide, by decide, by decide⟩

/-- C9 (amended): selector validation does not check uniqueness — every
one-dimensional int64 subset on the controller's device whose values are
non-negative and below the bound is classified VALID even when it
contains duplicated indices, and selector generation (hence the partial
update) proceeds through it. -/
theorem duplicate_selector_amended (dev : TDevice) (bound nDofs : Nat)
    (t : IdxTensor) (h1 : t.shape.length = 1) (h2 : t.dtype = TDtype.int64)
    (h3 : t.device = dev) (h4 : t.vals ≠ [])
    (h5 : ∀ v ∈ t.vals, 0 ≤ v ∧ v < (bound : Int)) :
    checkIdxTensor dev bound t = IndxState.VALID ∧
    genSelector dev bound nDofs (some t) none = some (t.vals, rangeIdx nDofs) := by
  have hc := checkIdxTensor_valid_of dev bound t h1 h2 h3 h4 h5
  exact ⟨hc, by simp [genSelector, hc]⟩

theorem duplicate_selector_amended_witness :
    (dupRobots.shape.length = 1 ∧ dupRobots.dtype = TDtype.int64 ∧
     dupRobots.device = TDevice.cpu ∧ dupRobots.vals ≠ [] ∧
     (∀ v ∈ dupRobots.vals, 0 ≤ v ∧ v < (2 : Int))) ∧
    (checkIdxTensor TDevice.cpu 2 dupRobots = IndxState.VALID ∧
     genSelector TDevice.cpu 2 3 (some dupRobots) none
        = some (dupRobots.vals, rangeIdx 3)) :=
  ⟨⟨rfl, rfl, rfl, by decide, by decide⟩,
   duplicate_selector_amended TDevice.cpu 2 3 dupRobots rfl rfl rfl
     (by decide) (by decide)⟩

/-- C10 counterexample: the robot subset `[1, 0]` of dtype int32 (values
unique, non-negative, in-bounds) passed to `update_state` with a
full-buffer-shaped signal yields all-true flags and the measurement
buffer is overwritten — the write is not refused and no field is flagged
false. -/
theorem dtype_device_redirect_cex :
    i32Robots.vals.Nodup ∧
    i32Robots.dtype ≠ TDtype.int64 ∧
    (updateState ctrl2x3 (some sigFull) none none (some i32Robots) none).2
      = [true, true, true, true] ∧
    (updateState ctrl2x3 (some sigFull) none none (some i32Robots) none).1.pos
      ≠ ctrl2x3.pos := by
  exact ⟨by decide, by decide, by decide, by decide⟩

/-- C10 (amended): selector validity depends on the tensor's dtype and
device placement, not only on the index values — a subset with wrong
dtype or device is classified INVALID however well-formed its values
are; the partial write through it is then refused with a false field
flag whenever the signal does not match the full buffer shape and
device (a full-buffer-shaped signal is instead redirected to the whole
buffer with a true flag). -/
theorem selector_dtype_device_amended {R C : Nat} (ctrl : OmniJntImpCntrl R C)
    (t : IdxTensor) (sig : Signal)
    (hbad : t.dtype ≠ TDtype.int64 ∨ t.device ≠ ctrl.device)
    (hmis : ¬(sig.rows = R ∧ sig.cols = C ∧ sig.device = ctrl.device)) :
    checkIdxTensor ctrl.device R t = IndxState.INVALID ∧
    updateState ctrl (some sig) none none (some t) none
      = (ctrl, [false, true, true, true]) := by
  have hinv : checkIdxTensor ctrl.device R t = IndxState.INVALID := by
    rw [checkIdxTensor, if_neg]
    rintro ⟨-, hdt, hdev, -⟩
    rcases hbad with hb | hb
    · exact hb hdt
    · exact hb hdev
  have hsel : genSelector ctrl.device R C (some t) none = none := by
    simp [genSelector, hinv]
  have hv : validateSignal ctrl.device R C sig none = false :=
    validateSignal_full_false ctrl.device R C sig hmis
  exact ⟨hinv, by simp [updateState, hsel, hv]⟩

theorem selector_dtype_device_amended_witness :
    ((i32Robots.dtype ≠ TDtype.int64 ∨ i32Robots.device ≠ ctrl2x3.device) ∧
     ¬(sig1x1.rows = 2 ∧ sig1x1.cols = 3 ∧ sig1x1.device = ctrl2x3.device)) ∧
    (checkIdxTensor ctrl2x3.device 2 i32Robots = IndxState.INVALID ∧
     updateState ctrl2x3 (some sig1x1) none none (some i32Robots) none
        = (ctrl2x3, [false, true, true, true])) :=
  ⟨⟨Or.inl (by decide), by decide⟩,
   selector_dtype_device_amended ctrl2x3 i32Robots sig1x1
     (Or.inl (by decide)) (by decide)⟩
